import Mathlib

/-!
Verification development for the symptom-triage matching engine of the
Disease-outbreak-prediction repository
(`src/server/src/services/symptom_service.py` and
`src/server/src/services/symptom_data.py`).

The Python code is shallowly embedded: strings are Lean `String`s, Python
floats are modelled as exact rationals (`ℚ`), Python `round` (banker's
rounding / round-half-to-even) is modelled by `roundHalfEven`, dicts are
association lists in declaration order (Python 3.7+ dicts iterate in
insertion order), and `difflib.SequenceMatcher.ratio` is modelled by
`fuzzy_similarity` below (no junk heuristic applies: `isjunk=None` and all
strings involved are far shorter than the 200-character autojunk cutoff).
-/

set_option maxRecDepth 100000
set_option maxHeartbeats 8000000

namespace SymptomChecker

/- ═══════════════════ Python string primitives ═══════════════════ -/

/-- The codepoints of a string. Python compares strings codepoint-wise, so
all string comparisons of the engine are modelled on codepoint lists. -/
def strN (s : String) : List Nat := s.data.map Char.toNat

/-- Python's `a == b` on strings. -/
def pyEq (a b : String) : Bool := strN a == strN b

/-- The test `leadsWith a b`: true when the codepoint list `a` occurs at the very
start of `b` (helper for substring containment). -/
def leadsWith : List Nat → List Nat → Bool
  | [], _ => true
  | _ :: _, [] => false
  | a :: as, b :: bs => a == b && leadsWith as bs

/-- The test `subScan needle nl hay hl`: true when `needle` (of length `nl`) occurs
contiguously in `hay` (of length `hl`); the length arguments only prune
positions where no match could fit. -/
def subScan (needle : List Nat) (nl : Nat) : List Nat → Nat → Bool
  | [], _ => nl == 0
  | h :: t, hl => if hl < nl then false else leadsWith needle (h :: t) || subScan needle nl t (hl - 1)

/-- Python's `a in b` on strings: `a` is a contiguous substring of `b`. -/
def pyIn (a b : String) : Bool := subScan (strN a) (strN a).length (strN b) (strN b).length

/-- Python's `s.lower()` (character-wise; the engine's data is ASCII). -/
def pyLower (s : String) : String := ⟨s.data.map Char.toLower⟩

/-- Python's `s.strip()`: drop whitespace from both ends. -/
def pyStrip (s : String) : String :=
  ⟨((s.data.dropWhile Char.isWhitespace).reverse.dropWhile Char.isWhitespace).reverse⟩

/-- Python's `s.split()`: split on whitespace runs, dropping empty pieces. -/
def pyWordList (s : String) : List String :=
  (s.split Char.isWhitespace).filter (fun w => w ≠ "")

/- ═══════════════════ SYNONYM_MAP (symptom_data.py lines 20-113) ═══════════════════ -/

/-- Embeds `SYNONYM_MAP`: common user phrases → canonical symptom names, as
an association list in the dict's declaration (= iteration) order. -/
def SYNONYM_MAP : List (String × String) := [
  -- Breathing
  ("cant breathe", "shortness of breath"), ("can't breathe", "shortness of breath"),
  ("hard to breathe", "shortness of breath"), ("breathing difficulty", "shortness of breath"),
  ("trouble breathing", "shortness of breath"), ("gasping", "shortness of breath"),
  ("out of breath", "shortness of breath"), ("breathless", "shortness of breath"),
  ("winded", "shortness of breath"), ("suffocating", "shortness of breath"),
  -- Chest
  ("chest hurts", "chest pain"), ("chest ache", "chest pain"),
  ("heart hurts", "chest pain"), ("pressure in chest", "chest tightness"),
  ("heavy chest", "chest tightness"), ("chest squeeze", "chest tightness"),
  -- Urination
  ("peeing a lot", "frequent urination"), ("pee a lot", "frequent urination"),
  ("always urinating", "frequent urination"), ("constant urination", "frequent urination"),
  ("blood when peeing", "blood in urine"), ("bloody urine", "blood in urine"),
  ("foamy pee", "foamy urine"), ("bubbly urine", "foamy urine"),
  ("dark pee", "dark urine"), ("brown urine", "dark urine"),
  ("pee less", "decreased urination"), ("not peeing", "decreased urination"),
  -- Thirst / Hunger
  ("very thirsty", "excessive thirst"), ("always thirsty", "excessive thirst"),
  ("drink a lot of water", "excessive thirst"), ("parched", "excessive thirst"),
  ("always hungry", "increased hunger"), ("eating a lot", "increased hunger"),
  -- Fatigue / Energy
  ("always tired", "fatigue"), ("no energy", "fatigue"), ("exhausted", "fatigue"),
  ("worn out", "fatigue"), ("drained", "fatigue"), ("weak", "fatigue"),
  ("low energy", "low energy"), ("lethargic", "fatigue"), ("sluggish", "fatigue"),
  -- Vision
  ("blurry vision", "blurred vision"), ("cant see clearly", "blurred vision"),
  ("fuzzy vision", "blurred vision"), ("vision problems", "blurred vision"),
  -- Heart
  ("heart racing", "rapid heartbeat"), ("fast heartbeat", "rapid heartbeat"),
  ("heart fluttering", "heart palpitations"), ("skipped heartbeat", "irregular heartbeat"),
  ("pounding heart", "heart palpitations"), ("heartbeat irregular", "irregular heartbeat"),
  -- Mental Health
  ("feeling sad", "persistent sadness"), ("feeling down", "persistent sadness"),
  ("feeling blue", "persistent sadness"), ("feel depressed", "persistent sadness"),
  ("no motivation", "low motivation"), ("dont care anymore", "loss of interest"),
  ("lost interest", "loss of interest"), ("no interest", "loss of interest"),
  ("cant concentrate", "difficulty concentrating"), ("brain fog", "difficulty concentrating"),
  ("cant focus", "difficulty concentrating"), ("memory loss", "memory problems"),
  ("forgetful", "memory problems"), ("feeling hopeless", "hopelessness"),
  ("feeling worthless", "worthlessness"), ("feel guilty", "guilt"),
  ("cant sleep", "insomnia"), ("trouble sleeping", "sleep problems"),
  ("sleeping too much", "oversleeping"), ("mood changes", "mood swings"),
  ("nervous", "anxiety"), ("worried", "anxiety"), ("panic", "anxiety"),
  ("feel alone", "loneliness"), ("feel empty", "feeling empty"),
  ("withdrawn", "social withdrawal"), ("isolated", "social withdrawal"),
  ("crying a lot", "crying spells"),
  -- Movement / Neuro
  ("shaky hands", "hand tremor"), ("hands shaking", "hand tremor"),
  ("trembling", "tremor"), ("shaking hands", "hand tremor"),
  ("stiff muscles", "muscle stiffness"), ("rigid muscles", "rigid muscles"),
  ("hard to walk", "difficulty walking"), ("balance issues", "balance problems"),
  ("off balance", "impaired balance"), ("clumsy", "coordination problems"),
  ("slow moving", "slow movement"), ("shuffling feet", "shuffling walk"),
  ("small writing", "small handwriting"), ("quiet voice", "soft speech"),
  ("face expressionless", "facial masking"), ("drool", "drooling"),
  ("hard to swallow", "difficulty swallowing"), ("cant smell", "loss of smell"),
  -- Pain
  ("head hurts", "headaches"), ("headache", "headaches"), ("migraine", "headaches"),
  ("back hurts", "back pain"), ("lower back hurts", "lower back pain"),
  ("arm hurts", "arm pain"), ("left arm hurts", "left arm pain"),
  ("jaw hurts", "jaw pain"), ("shoulder hurts", "shoulder pain"),
  ("body hurts", "body aches"), ("aching body", "body aches"),
  -- Swelling
  ("feet swollen", "swollen ankles"), ("legs swollen", "swollen legs"),
  ("ankles swollen", "swollen ankles"), ("puffy face", "puffy eyes"),
  ("swollen face", "puffy eyes"), ("bloated", "swelling"),
  -- Skin
  ("itching", "itchy skin"), ("skin itching", "itchy skin"),
  ("dry patches", "dry skin"), ("skin dry", "dry skin"),
  ("dark patches", "darkened skin"), ("skin darkening", "darkened skin"),
  -- Digestive
  ("throwing up", "vomiting"), ("feel sick", "nausea"), ("queasy", "nausea"),
  ("no appetite", "loss of appetite"), ("not hungry", "loss of appetite"),
  ("constipated", "constipation"), ("blocked up", "constipation"),
  -- Weight
  ("losing weight", "unexplained weight loss"), ("weight dropping", "unexplained weight loss"),
  ("gaining weight", "weight gain"), ("putting on weight", "weight gain"),
  -- Other
  ("dizzy", "dizziness"), ("lightheaded", "lightheadedness"), ("passed out", "fainting"),
  ("fainted", "fainting"), ("tingling hands", "tingling hands"),
  ("tingling feet", "tingling feet"), ("pins and needles", "tingling"),
  ("numb hands", "numbness in hands"), ("numb feet", "numbness in feet"),
  ("numb", "numbness"), ("sweaty", "cold sweats"), ("night sweats", "cold sweats"),
  ("dehydrated", "dehydration"), ("wounds not healing", "slow healing wounds"),
  ("cuts not healing", "slow healing wounds"), ("sweet breath", "sweet smelling breath"),
  ("fruity breath", "sweet smelling breath"), ("metallic mouth", "metallic taste"),
  ("taste metal", "metallic taste"), ("muscle cramp", "muscle cramps"),
  ("leg cramps", "muscle cramps"), ("bp high", "high blood pressure"),
  ("hypertension", "high blood pressure"), ("infections often", "frequent infections"),
  ("yeast infection", "yeast infections"), ("irritable", "irritability"),
  ("stressed", "stress"), ("restless", "restlessness"), ("agitated", "restlessness")]

/- ═══════════════════ expand_synonyms (symptom_service.py lines 87-110) ═══════════════════ -/

/-- Python's `d[key]` / `d.get(key)` on a string-keyed dict, as an
association list lookup by exact string equality (keys are unique in every
dict of the engine, so first-match lookup is dict lookup). -/
def dictLookup {α : Type} (key : String) : List (String × α) → Option α
  | [] => none
  | (k, v) :: rest => if pyEq key k then some v else dictLookup key rest

/-- Python's `round(q)`: round half to even, returning an integer. -/
def roundHalfEven (q : ℚ) : ℤ :=
  let f : ℤ := ⌊q⌋
  if q - f < 1/2 then f
  else if (1 : ℚ)/2 < q - f then f + 1
  else if f % 2 = 0 then f else f + 1

/-- Python's `round(q, 1)` (floats modelled as exact rationals). -/
def rnd1 (q : ℚ) : ℚ := (roundHalfEven (q * 10) : ℚ) / 10

/-- Python's `round(q, 2)`. -/
def rnd2 (q : ℚ) : ℚ := (roundHalfEven (q * 100) : ℚ) / 100

/-- Whitespace codepoints (space, tab, line feed, carriage return): the
characters `Char.isWhitespace` recognises, which covers all whitespace
occurring in the engine's data and inputs. -/
def wsNat (n : Nat) : Bool := n == 32 || n == 9 || n == 10 || n == 13

/-- Helper for `pyWords`: split a codepoint list on whitespace runs,
accumulating the current word in reverse. -/
def splitAux : List Nat → List Nat → List (List Nat)
  | cur, [] => if cur == [] then [] else [cur.reverse]
  | cur, c :: rest =>
    if wsNat c then
      (if cur == [] then splitAux [] rest else cur.reverse :: splitAux [] rest)
    else splitAux (c :: cur) rest

/-- Python's `s.split()`: whitespace-separated words, no empties. -/
def pyWords (s : String) : List (List Nat) := splitAux [] (strN s)

/-- Membership of a word in a word list. -/
def memWord (x : List Nat) : List (List Nat) → Bool
  | [] => false
  | w :: rest => x == w || memWord x rest

/-- The distinct words of a word list (Python's `set(...)`; keeps the last
occurrence of each duplicate, which preserves set cardinality and
membership — the only uses the engine makes of these sets). -/
def dedupWords : List (List Nat) → List (List Nat)
  | [] => []
  | w :: rest => if memWord w rest then dedupWords rest else w :: dedupWords rest

/- ═══════════════════ difflib.SequenceMatcher (used by _fuzzy_similarity) ═══════════════════ -/

/-- Length of the longest common prefix of two codepoint lists. -/
def lcp : List Nat → List Nat → Nat
  | a :: as, b :: bs => if a == b then lcp as bs + 1 else 0
  | _, _ => 0

/-- Scan all start positions `j` in `b` for the best block against the fixed
suffix `sa` of `a` (starting at index `i`); a strict improvement in size is
required, so the earliest `j` wins ties. (The running best is destructured
and the block size compared at every step — a common prefix of length `0`
can never strictly beat the running best — which keeps the evaluation
shallow.) -/
def bestOverB (sa : List Nat) (i : Nat) : List Nat → Nat → Nat × Nat × Nat → Nat × Nat × Nat
  | [], _, best => best
  | b :: bs, j, best =>
    match lcp sa (b :: bs), best with
    | 0, (bi, bj, bk) => bestOverB sa i bs (j + 1) (bi, bj, bk)
    | kk + 1, (bi, bj, bk) =>
      if kk + 1 > bk then bestOverB sa i bs (j + 1) (i, j, kk + 1)
      else bestOverB sa i bs (j + 1) (bi, bj, bk)

/-- Scan all start positions `i` in `a`; strict improvement means the
earliest `i` (and within it the earliest `j`) wins ties. -/
def bestOverA : List Nat → Nat → List Nat → Nat × Nat × Nat → Nat × Nat × Nat
  | [], _, _, best => best
  | a :: as, i, b, best => bestOverA as (i + 1) b (bestOverB (a :: as) i b 0 best)

/-- Embeds `SequenceMatcher.find_longest_match` over full ranges, no junk (the
engine constructs `SequenceMatcher(None, a, b)` on strings far below the
200-character autojunk cutoff): the longest block `(i, j, k)` with
`a[i:i+k] == b[j:j+k]`, ties broken by smallest `i`, then smallest `j`. -/
def find_longest_match (a b : List Nat) : Nat × Nat × Nat :=
  bestOverA a 0 b (0, 0, 0)

/-- Total size of all matching blocks (`get_matching_blocks`): recursively
split around the longest match. The fuel argument only forces termination;
`a.length + b.length` fuel always suffices since each recursive call
strictly shrinks the combined length. -/
def matchSum : Nat → List Nat → List Nat → Nat
  | 0, _, _ => 0
  | fuel + 1, a, b =>
    let m := find_longest_match a b
    let i := m.1; let j := m.2.1; let k := m.2.2
    if k == 0 then 0
    else matchSum fuel (a.take i) (b.take j) + k +
      matchSum fuel (a.drop (i + k)) (b.drop (j + k))

/-- Embeds `_fuzzy_similarity` (symptom_service.py lines 113-118):
`SequenceMatcher(None, a.lower(), b.lower()).ratio()`, i.e.
`2*M / (len(a)+len(b))` where `M` is the total matched size (and `1.0` when
both strings are empty, as in `difflib._calculate_ratio`). -/
def fuzzy_similarity (a b : String) : ℚ :=
  let an := strN (pyLower a)
  let bn := strN (pyLower b)
  let total := an.length + bn.length
  if total == 0 then 1 else (2 * (matchSum total an bn : ℚ)) / (total : ℚ)

/-- The `for phrase, canonical in SYNONYM_MAP.items()` fallback loop of
`expand_synonyms`: return the canonical form of the first table entry whose
key contains, or is contained in, the lowered input. -/
def synonymScan (lower : String) : List (String × String) → String
  | [] => lower
  | (phrase, canonical) :: rest =>
    if pyIn phrase lower || pyIn lower phrase then canonical
    else synonymScan lower rest

/-- Embeds `expand_synonyms`: lower-case and trim the input, try an exact
dict lookup, then the substring fallback loop, else return the lowered
input itself. -/
def expand_synonyms (symptom_text : String) : String :=
  let lower := pyStrip (pyLower symptom_text)
  match dictLookup lower SYNONYM_MAP with
  | some canonical => canonical
  | none => synonymScan lower SYNONYM_MAP

/-- Modelled from the spec (§4.1 SynonymResolver), for comparison with the
source-derived `expand_synonyms`: exact key lookup first; otherwise the
canonical mapping of the first key, in the table's defined iteration order,
that is contained in the phrase or contains the phrase; otherwise the
lower-cased trimmed phrase itself. -/
def resolveSpec (t : String) : String :=
  let lower := pyStrip (pyLower t)
  match dictLookup lower SYNONYM_MAP with
  | some c => c
  | none =>
    match SYNONYM_MAP.find? (fun p => pyIn p.1 lower || pyIn lower p.1) with
    | some p => p.2
    | none => lower

/- ═══════════════════ RED_FLAG_RULES (symptom_data.py lines 118-159) ═══════════════════ -/

structure RedFlagRule where
  name : String
  required : List String
  supporting : List String
  min_supporting : Nat
  message : String
  action : String
  deriving DecidableEq

structure Alert where
  name : String
  message : String
  action : String
  severity : String
  deriving DecidableEq

/-- Embeds `RED_FLAG_RULES`, in declaration order. -/
def RED_FLAG_RULES : List RedFlagRule := [
  { name := "Possible Heart Attack",
    required := ["chest pain"],
    supporting := ["shortness of breath", "cold sweats", "left arm pain", "jaw pain", "nausea"],
    min_supporting := 1,
    message := "ğŸš¨ Your symptoms may indicate a cardiac emergency. Please call emergency services (911) immediately or have someone drive you to the nearest emergency room.",
    action := "Call 911 / Emergency Services NOW" },
  { name := "Possible Stroke",
    required := ["numbness"],
    supporting := ["difficulty concentrating", "dizziness", "difficulty walking", "speech changes"],
    min_supporting := 1,
    message := "ğŸš¨ These symptoms could indicate a stroke. Remember FAST: Face drooping, Arm weakness, Speech difficulty, Time to call 911.",
    action := "Call 911 / Emergency Services NOW" },
  { name := "Diabetic Emergency",
    required := ["sweet smelling breath"],
    supporting := ["nausea", "vomiting", "excessive thirst", "frequent urination", "dehydration"],
    min_supporting := 2,
    message := "ğŸš¨ These symptoms may indicate diabetic ketoacidosis (DKA), a medical emergency. Seek immediate medical attention.",
    action := "Go to Emergency Room Immediately" },
  { name := "Severe Cardiac Symptoms",
    required := ["irregular heartbeat", "fainting"],
    supporting := ["chest pain", "shortness of breath", "dizziness"],
    min_supporting := 0,
    message := "ğŸš¨ Irregular heartbeat combined with fainting requires immediate medical evaluation. Do not drive yourself.",
    action := "Call 911 / Emergency Services NOW" },
  { name := "Suicidal Crisis Indicators",
    required := ["hopelessness", "worthlessness"],
    supporting := ["social withdrawal", "insomnia", "loss of interest", "feeling empty"],
    min_supporting := 2,
    message := "ğŸš¨ If you or someone you know is in crisis, please contact the 988 Suicide & Crisis Lifeline by calling or texting 988. Help is available 24/7.",
    action := "Call/Text 988 Now" }]

/- ═══════════════════ check_red_flags (symptom_service.py lines 125-162) ═══════════════════ -/

/-- A required or supporting symptom is present when it equals, is contained
in, or contains some user symptom (`any(x in s or s in x for s in symptom_set)`;
the Python code iterates over `set(canonical_symptoms)`, and existence over
the set is existence over the list). -/
def presentIn (symptom_set : List String) (x : String) : Bool :=
  symptom_set.any (fun s => pyIn x s || pyIn s x)

/-- The `for rule in RED_FLAG_RULES` loop of `check_red_flags`. -/
def redFlagLoop (symptom_set : List String) : List RedFlagRule → List Alert
  | [] => []
  | rule :: rest =>
    if rule.required.all (presentIn symptom_set) then
      if rule.supporting.countP (presentIn symptom_set) ≥ rule.min_supporting then
        { name := rule.name, message := rule.message, action := rule.action,
          severity := "critical" } :: redFlagLoop symptom_set rest
      else redFlagLoop symptom_set rest
    else redFlagLoop symptom_set rest

/-- Embeds `check_red_flags`. -/
def check_red_flags (canonical_symptoms : List String) : List Alert :=
  redFlagLoop canonical_symptoms RED_FLAG_RULES

/- ═══════════════════ SYMPTOM_DATABASE (symptom_data.py lines 164-244) ═══════════════════ -/

structure AgeModifier where
  threshold : Int
  factor : ℚ
  deriving DecidableEq

structure Disease where
  name : String
  icon : String
  id : String
  body_system : String
  body_system_icon : String
  symptoms : List (String × ℚ)
  urgency_threshold : ℚ
  description : String
  age_modifier : AgeModifier
  sex_modifier : List (String × ℚ)
  deriving DecidableEq

/-- Embeds `SYMPTOM_DATABASE`, in declaration order (each condition's
`symptoms` dict is kept in its declaration order as well; every condition in
the data has a non-empty `age_modifier` dict, modelled as an `AgeModifier`). -/
def SYMPTOM_DATABASE : List (String × Disease) := [
  ("heart",
   { name := "Heart Disease", icon := "â¤ï¸", id := "heart",
     body_system := "Cardiovascular",
     body_system_icon := "ğŸ«€",
     symptoms := [
       ("chest pain", 3), ("chest tightness", 3), ("shortness of breath", 2.5),
       ("irregular heartbeat", 3), ("heart palpitations", 2.5), ("dizziness", 1.5),
       ("fatigue", 1), ("swollen legs", 2), ("swollen ankles", 2), ("cold sweats", 2),
       ("nausea", 1), ("jaw pain", 2), ("arm pain", 2.5), ("left arm pain", 3),
       ("shoulder pain", 1.5), ("high blood pressure", 2), ("rapid heartbeat", 2.5),
       ("fainting", 2), ("lightheadedness", 1.5), ("chest discomfort", 2.5),
       ("difficulty breathing", 2), ("wheezing", 1), ("back pain", 0.5), ("numbness", 1)],
     urgency_threshold := 6,
     description := "Symptoms suggest possible cardiovascular concerns. Heart disease risk factors include high blood pressure, cholesterol, smoking, and family history.",
     age_modifier := { threshold := 45, factor := 1.2 },
     sex_modifier := [("male", 1.15), ("female", 1.0)] }),
  ("diabetes",
   { name := "Diabetes", icon := "ğŸ©º", id := "diabetes",
     body_system := "Endocrine",
     body_system_icon := "ğŸ§ª",
     symptoms := [
       ("frequent urination", 3), ("excessive thirst", 3), ("increased hunger", 2.5),
       ("unexplained weight loss", 2.5), ("blurred vision", 2), ("fatigue", 1.5),
       ("slow healing wounds", 2.5), ("slow healing", 2.5), ("tingling hands", 2),
       ("tingling feet", 2), ("numbness in hands", 2), ("numbness in feet", 2),
       ("dry skin", 1), ("frequent infections", 2), ("darkened skin", 1.5),
       ("yeast infections", 1.5), ("irritability", 1), ("sweet smelling breath", 3),
       ("nausea", 1), ("vomiting", 1), ("dehydration", 2), ("weight gain", 1.5),
       ("numbness", 1.5), ("tingling", 2)],
     urgency_threshold := 5,
     description := "Symptoms align with possible blood sugar irregularities. Diabetes risk increases with obesity, inactivity, family history, and age.",
     age_modifier := { threshold := 40, factor := 1.15 },
     sex_modifier := [("male", 1.05), ("female", 1.0)] }),
  ("kidney",
   { name := "Kidney Disease", icon := "ğŸ«˜", id := "kidney",
     body_system := "Renal",
     body_system_icon := "ğŸ«˜",
     symptoms := [
       ("swollen legs", 2.5), ("swollen ankles", 2.5), ("puffy eyes", 2.5),
       ("frequent urination", 2), ("decreased urination", 3), ("blood in urine", 3),
       ("foamy urine", 3), ("dark urine", 2), ("fatigue", 1.5), ("nausea", 1.5),
       ("vomiting", 1.5), ("loss of appetite", 1.5), ("muscle cramps", 2),
       ("back pain", 2), ("lower back pain", 2.5), ("high blood pressure", 2),
       ("difficulty sleeping", 1), ("dry skin", 1), ("itchy skin", 2),
       ("metallic taste", 2), ("shortness of breath", 1.5), ("swelling", 2),
       ("ankle swelling", 2.5), ("dehydration", 1.5), ("weight loss", 1)],
     urgency_threshold := 5,
     description := "Symptoms may indicate kidney function concerns. Risk factors include diabetes, high blood pressure, heart disease, and family history.",
     age_modifier := { threshold := 50, factor := 1.1 },
     sex_modifier := [("male", 1.05), ("female", 1.0)] }),
  ("depression",
   { name := "Depression", icon := "ğŸ§ ", id := "depression",
     body_system := "Mental Health",
     body_system_icon := "ğŸ§ ",
     symptoms := [
       ("persistent sadness", 3), ("sadness", 2.5), ("hopelessness", 3),
       ("loss of interest", 3), ("fatigue", 2), ("sleep problems", 2.5),
       ("insomnia", 2.5), ("oversleeping", 2), ("appetite changes", 2),
       ("weight changes", 1.5), ("difficulty concentrating", 2.5), ("anxiety", 2),
       ("irritability", 2), ("restlessness", 1.5), ("guilt", 2),
       ("worthlessness", 3), ("social withdrawal", 2.5), ("low energy", 2),
       ("low motivation", 2.5), ("crying spells", 2), ("body aches", 1),
       ("headaches", 1), ("memory problems", 1.5), ("mood swings", 2),
       ("feeling empty", 3), ("loneliness", 2), ("stress", 1.5)],
     urgency_threshold := 5,
     description := "Symptoms align with potential mood or mental health concerns. Depression is a common, treatable condition affecting millions worldwide.",
     age_modifier := { threshold := 0, factor := 1.0 },
     sex_modifier := [("male", 1.0), ("female", 1.1)] })]

/- ═══════════════════ match_symptoms (symptom_service.py lines 168-323) ═══════════════════ -/

structure MatchedSymptom where
  user_input : String
  matched_to : String
  weight : ℚ
  severity : String
  deriving DecidableEq

structure ExpansionEntry where
  original : String
  resolved_to : String
  deriving DecidableEq

structure DiseaseScore where
  name : String
  id : String
  icon : String
  body_system : String
  body_system_icon : String
  confidence : ℚ
  score : ℚ
  raw_score : ℚ
  matched_symptoms : List MatchedSymptom
  urgency : String
  triage : String
  description : String
  symptom_count : Nat
  total_symptoms_checked : Nat
  demographic_notes : List String
  has_followup_questions : Bool
  deriving DecidableEq, Inhabited

/-- The `for known_symptom, weight in disease_info["symptoms"].items()` loop:
running best match and best score, with exact match breaking out of the
loop, substring and token-overlap matches in an if/elif chain, and the
fuzzy check running afterwards in the same iteration (guarded by the raw
table weight exceeding the current best score). -/
def bestMatchLoop (canonical : String) : List (String × ℚ) → Option String × ℚ → Option String × ℚ
  | [], best => best
  | (known, weight) :: rest, (bm, bs) =>
    if pyEq canonical known then (some known, weight)
    else
      let step1 : Option String × ℚ :=
        if pyIn canonical known || pyIn known canonical then
          (if weight > bs then (some known, weight) else (bm, bs))
        else
          let user_words := dedupWords (pyWords canonical)
          let symptom_words := dedupWords (pyWords known)
          let overlap := (user_words.filter (fun w => memWord w symptom_words)).length
          if 1 ≤ overlap ∧
              (overlap : ℚ) / (max user_words.length symptom_words.length : ℚ) > 0.4 then
            let candidate_score := weight * ((overlap : ℚ) / (symptom_words.length : ℚ))
            (if candidate_score > bs then (some known, candidate_score) else (bm, bs))
          else (bm, bs)
      let step2 : Option String × ℚ :=
        if weight > step1.2 then
          let similarity := fuzzy_similarity canonical known
          if similarity ≥ 0.75 ∧ weight * similarity > step1.2 then
            (some known, weight * similarity)
          else step1
        else step1
      bestMatchLoop canonical rest step2

/-- The severity multiplier `{"mild": 0.7, "moderate": 1.0, "severe": 1.4}.get(sev, 1.0)`. -/
def sevMultiplier (sev : String) : ℚ :=
  if pyEq sev "mild" then 0.7
  else if pyEq sev "moderate" then 1.0
  else if pyEq sev "severe" then 1.4
  else 1.0

/-- One user symptom against one condition: the severity-multiplied matched
record (when the best match is non-`None` with positive score) and its
contribution to `total_score`. -/
def scoreSymptom (d_syms : List (String × ℚ)) (severity_map : List (String × String))
    (user_symptom canonical : String) : Option MatchedSymptom × ℚ :=
  match bestMatchLoop canonical d_syms (none, 0) with
  | (some best_match, best_score) =>
    if best_score > 0 then
      let sev := (dictLookup user_symptom severity_map).getD "moderate"
      let s := best_score * sevMultiplier sev
      (some { user_input := user_symptom, matched_to := best_match,
              weight := rnd2 s, severity := sev }, s)
    else (none, 0)
  | (none, _) => (none, 0)

/-- The `for idx, user_symptom in enumerate(user_symptoms)` loop: matched
records in input order and the accumulated `total_score`. -/
def matchedAndTotal (d_syms : List (String × ℚ)) (severity_map : List (String × String)) :
    List (String × String) → List MatchedSymptom × ℚ
  | [] => ([], 0)
  | (u, c) :: rest =>
    let (m, s) := scoreSymptom d_syms severity_map u c
    let (ms, total) := matchedAndTotal d_syms severity_map rest
    match m with
    | some mm => (mm :: ms, s + total)
    | none => (ms, total)

/-- The age-modifier block: multiplicative factor and note. The
`if age_mod and ...` truthiness test always passes on this database (every
condition has a non-empty `age_modifier`). -/
def ageFactorStep (d : Disease) (age : Option Int) : ℚ × List String :=
  match age with
  | none => (1, [])
  | some a =>
    if (a : ℚ) ≥ (d.age_modifier.threshold : ℚ) then
      (d.age_modifier.factor,
       ["Age " ++ toString a ++ " increases " ++ d.name ++ " risk (+" ++
        toString (roundHalfEven ((d.age_modifier.factor - 1) * 100)) ++ "%)"])
    else (1, [])

/-- The sex-modifier block (`if sex:` is false for `None` and for the empty
string; `sex_mod.get(sex.lower(), 1.0)`; a factor of exactly 1.0 is not
applied and leaves no note). -/
def sexFactorStep (d : Disease) (sex : Option String) : ℚ × List String :=
  match sex with
  | none => (1, [])
  | some s =>
    if pyEq s "" then (1, [])
    else
      let factor := (dictLookup (pyLower s) d.sex_modifier).getD 1.0
      if factor ≠ 1.0 then
        (factor,
         ["Sex-based risk adjustment (+" ++
          toString (roundHalfEven ((factor - 1) * 100)) ++ "%)"])
      else (1, [])

/-- The demographic-modifier block: `demo_factor` (a product of the applied
factors, starting from 1.0) and the collected notes. -/
def demoFactorNotes (d : Disease) (age : Option Int) (sex : Option String) : ℚ × List String :=
  ((ageFactorStep d age).1 * (sexFactorStep d sex).1,
   (ageFactorStep d age).2 ++ (sexFactorStep d sex).2)

/-- Embeds `max_possible`: the sum of the `n` largest symptom weights of the
condition (`sorted(values, reverse=True)[:n]`). -/
def maxPossible (d : Disease) (n : Nat) : ℚ :=
  ((List.insertionSort (fun a b : ℚ => b ≤ a) (d.symptoms.map Prod.snd)).take n).sum

/-- Embeds `confidence = min(round(adjusted_score / max(max_possible, 1), 2), 0.99)`. -/
def confidenceOf (d : Disease) (adjusted_score : ℚ) (n : Nat) : ℚ :=
  min (rnd2 (adjusted_score / max (maxPossible d n) 1)) 0.99

/-- The urgency tier of the initial pass. -/
def urgencyOf (d : Disease) (adjusted_score : ℚ) : String :=
  if adjusted_score ≥ d.urgency_threshold * 1.5 then "high"
  else if adjusted_score ≥ d.urgency_threshold then "moderate"
  else "low"

/-- The triage level of the initial pass (urgency and confidence). -/
def triageOf (urgency : String) (confidence : ℚ) : String :=
  if urgency = "high" ∧ confidence > 0.5 then "urgent"
  else if urgency = "high" then "prompt"
  else if urgency = "moderate" then "standard"
  else "informational"

/-- Scoring of one condition: `none` when no symptom matched, otherwise the
assembled result record. `pairs` is `user_symptoms` zipped with
`canonical_symptoms`. -/
def scoreDisease (disease_key : String) (d : Disease) (pairs : List (String × String))
    (age : Option Int) (sex : Option String) (severity_map : List (String × String))
    (followup_keys : List String) : Option DiseaseScore :=
  let (matched, total_score) := matchedAndTotal d.symptoms severity_map pairs
  if matched.isEmpty then none
  else
    let (demo_factor, demo_notes) := demoFactorNotes d age sex
    let adjusted_score := total_score * demo_factor
    let confidence := confidenceOf d adjusted_score pairs.length
    let urgency := urgencyOf d adjusted_score
    some {
      name := d.name, id := d.id, icon := d.icon,
      body_system := d.body_system, body_system_icon := d.body_system_icon,
      confidence := confidence,
      score := rnd1 adjusted_score,
      raw_score := rnd1 total_score,
      matched_symptoms := matched,
      urgency := urgency,
      triage := triageOf urgency confidence,
      description := d.description,
      symptom_count := matched.length,
      total_symptoms_checked := pairs.length,
      demographic_notes := demo_notes,
      has_followup_questions :=
        followup_keys.any (fun k => pyEq k disease_key) ∧
          (0.15 : ℚ) ≤ confidence ∧ confidence ≤ 0.65 }

/-- Embeds `match_symptoms`: synonym expansion with logging, per-condition
scoring, and the final stable sort by `score` descending (Python's
`list.sort(key=..., reverse=True)` is a stable descending sort, as is
`mergeSort` with this comparison). `followupKeys` is passed by
`match_symptoms` below as the keys of `FOLLOW_UP_QUESTIONS`. -/
def matchSymptomsWith (followup_keys : List String) (user_symptoms : List String)
    (age : Option Int) (sex : Option String) (severity_map : List (String × String)) :
    List DiseaseScore × List ExpansionEntry :=
  let canonical_symptoms := user_symptoms.map expand_synonyms
  let expansion_log := user_symptoms.filterMap (fun s =>
    let expanded := expand_synonyms s
    if ¬ pyEq expanded (pyStrip (pyLower s)) then
      some { original := s, resolved_to := expanded }
    else none)
  let results := SYMPTOM_DATABASE.filterMap (fun p =>
    scoreDisease p.1 p.2 (user_symptoms.zip canonical_symptoms) age sex severity_map
      followup_keys)
  (List.insertionSort (fun a b => b.score ≤ a.score) results, expansion_log)

/- ═══════════════════ FOLLOW_UP_QUESTIONS (symptom_data.py lines 246-282) ═══════════════════ -/

/-- A follow-up question. `qtype` is the `"type"` string the code dispatches
on; `yes_boost` is empty for select questions and `options`/`boosts` are
empty for yes/no questions, exactly as the corresponding dict keys are
absent (the code reads them with `.get(..., {})`). The `_crisis` entry of
the depression `self_harm` question carries the Python value `True`, which
the code never reads as a number; it is stored here as `1`. -/
structure FollowupQuestion where
  id : String
  question : String
  qtype : String
  yes_boost : List (String × ℚ)
  options : List String
  boosts : List (String × List (String × ℚ))
  deriving DecidableEq

/-- Embeds `FOLLOW_UP_QUESTIONS`, in declaration order. -/
def FOLLOW_UP_QUESTIONS : List (String × List FollowupQuestion) := [
  ("heart", [
    { id := "pain_radiation", question := "Does the chest pain radiate to your arm, jaw, or back?",
      qtype := "yesno", yes_boost := [("left arm pain", 2), ("jaw pain", 1.5)],
      options := [], boosts := [] },
    { id := "exertion_trigger", question := "Do your symptoms worsen with physical exertion?",
      qtype := "yesno", yes_boost := [("chest pain", 1), ("shortness of breath", 1)],
      options := [], boosts := [] },
    { id := "family_history", question := "Do you have a family history of heart disease?",
      qtype := "yesno", yes_boost := [("_global", 1.2)],
      options := [], boosts := [] }]),
  ("diabetes", [
    { id := "wound_healing", question := "Have you noticed cuts or wounds healing more slowly than usual?",
      qtype := "yesno", yes_boost := [("slow healing wounds", 2)],
      options := [], boosts := [] },
    { id := "vision_change", question := "Have you experienced any sudden changes in your vision?",
      qtype := "yesno", yes_boost := [("blurred vision", 1.5)],
      options := [], boosts := [] },
    { id := "family_diabetes", question := "Does anyone in your family have diabetes?",
      qtype := "yesno", yes_boost := [("_global", 1.15)],
      options := [], boosts := [] }]),
  ("kidney", [
    { id := "urine_change", question := "Have you noticed any changes in your urine (color, foaminess, frequency)?",
      qtype := "select", yes_boost := [],
      options := ["Darker than usual", "Foamy/bubbly", "Much less output", "No changes"],
      boosts := [("Darker than usual", [("dark urine", 2)]), ("Foamy/bubbly", [("foamy urine", 2)]),
                 ("Much less output", [("decreased urination", 2)])] },
    { id := "swelling_location", question := "Where do you notice swelling the most?",
      qtype := "select", yes_boost := [],
      options := ["Around eyes", "Ankles/feet", "Hands", "No swelling"],
      boosts := [("Around eyes", [("puffy eyes", 2)]), ("Ankles/feet", [("swollen ankles", 2)])] }]),
  ("depression", [
    { id := "duration", question := "How long have you been feeling this way?",
      qtype := "select", yes_boost := [],
      options := ["Less than 2 weeks", "2-4 weeks", "1-3 months", "More than 3 months"],
      boosts := [("2-4 weeks", [("_global", 1.1)]), ("1-3 months", [("_global", 1.2)]),
                 ("More than 3 months", [("_global", 1.3)])] },
    { id := "daily_impact", question := "Are these feelings affecting your daily activities (work, relationships)?",
      qtype := "yesno", yes_boost := [("_global", 1.2)],
      options := [], boosts := [] },
    { id := "self_harm", question := "Have you had any thoughts of harming yourself?",
      qtype := "yesno", yes_boost := [("_crisis", 1)],
      options := [], boosts := [] }])]

/-- Embeds `match_symptoms` with its defaults
(`age=None, sex=None, severity_map=None`): the `has_followup_questions`
flag tests `disease_key in FOLLOW_UP_QUESTIONS`. -/
def match_symptoms (user_symptoms : List String) (age : Option Int) (sex : Option String)
    (severity_map : List (String × String)) : List DiseaseScore × List ExpansionEntry :=
  matchSymptomsWith (FOLLOW_UP_QUESTIONS.map Prod.fst) user_symptoms age sex severity_map

/- ═══════════════════ apply_followup_boosts (symptom_service.py lines 329-394) ═══════════════════ -/

/-- Truthiness test `str(answer).lower() in ("yes", "true", "1")`. -/
def truthyAnswer (answer : String) : Bool :=
  pyEq (pyLower answer) "yes" || pyEq (pyLower answer) "true" || pyEq (pyLower answer) "1"

/-- The `for boost_symptom, boost_val in boosts.items()` loop of the yes/no
branch: `_global` multiplies score and (clamped) confidence, `_crisis` sets
the crisis flag, anything else adds to the score. -/
def applyYesBoosts : DiseaseScore → List (String × ℚ) → DiseaseScore × Bool
  | r, [] => (r, false)
  | r, (boost_symptom, boost_val) :: rest =>
    let step : DiseaseScore × Bool :=
      if pyEq boost_symptom "_global" then
        ({ r with score := rnd1 (r.score * boost_val),
                  confidence := min (rnd2 (r.confidence * boost_val)) 0.99 }, false)
      else if pyEq boost_symptom "_crisis" then (r, true)
      else ({ r with score := rnd1 (r.score + boost_val) }, false)
    let next := applyYesBoosts step.1 rest
    (next.1, step.2 || next.2)

/-- The boost loop of the select branch (no `_crisis` case there). -/
def applySelectBoosts : DiseaseScore → List (String × ℚ) → DiseaseScore
  | r, [] => r
  | r, (boost_symptom, boost_val) :: rest =>
    let r2 :=
      if pyEq boost_symptom "_global" then
        { r with score := rnd1 (r.score * boost_val),
                 confidence := min (rnd2 (r.confidence * boost_val)) 0.99 }
      else { r with score := rnd1 (r.score + boost_val) }
    applySelectBoosts r2 rest

/-- One follow-up question against the answers dict: unanswered questions
are skipped, non-truthy yes/no answers and select answers outside the
declared `boosts` keys are ignored. -/
def applyQuestion (answers : List (String × String)) (acc : DiseaseScore × Bool)
    (q : FollowupQuestion) : DiseaseScore × Bool :=
  match dictLookup q.id answers with
  | none => acc
  | some answer =>
    if pyEq q.qtype "yesno" then
      if truthyAnswer answer then
        let step := applyYesBoosts acc.1 q.yes_boost
        (step.1, acc.2 || step.2)
      else acc
    else if pyEq q.qtype "select" then
      match dictLookup answer q.boosts with
      | some items => (applySelectBoosts acc.1 items, acc.2)
      | none => acc
    else acc

/-- The `for q in disease_qs` loop for one result. -/
def boostResult (answers : List (String × String)) (r : DiseaseScore) : DiseaseScore × Bool :=
  ((dictLookup r.id FOLLOW_UP_QUESTIONS).getD []).foldl (applyQuestion answers) (r, false)

/-- The `for r in results` boost loop, accumulating the crisis flag. -/
def boostPhase (answers : List (String × String)) : List DiseaseScore → List DiseaseScore × Bool
  | [] => ([], false)
  | r :: rest =>
    let (r2, c) := boostResult answers r
    let (rs, cs) := boostPhase answers rest
    (r2 :: rs, c || cs)

/-- The re-tiering loop after the re-sort:
`threshold = SYMPTOM_DATABASE.get(r["id"], {}).get("urgency_threshold", 5)`,
then the simplified urgency/triage mapping. -/
def retier (r : DiseaseScore) : DiseaseScore :=
  let threshold := ((dictLookup r.id SYMPTOM_DATABASE).map Disease.urgency_threshold).getD 5
  if r.score ≥ threshold * 1.5 then { r with urgency := "high", triage := "urgent" }
  else if r.score ≥ threshold then { r with urgency := "moderate", triage := "standard" }
  else { r with urgency := "low", triage := "informational" }

/-- Embeds `apply_followup_boosts`: boost every result from the answers,
re-sort by score descending (stable, like Python's in-place `sort`), then
recompute urgency and triage for every result. -/
def apply_followup_boosts (results : List DiseaseScore) (answers : List (String × String)) :
    List DiseaseScore × Bool :=
  let (boosted, crisis_triggered) := boostPhase answers results
  ((List.insertionSort (fun a b => b.score ≤ a.score) boosted).map retier, crisis_triggered)

/- ═══════════════════ validate_symptoms (symptom_service.py lines 32-52) ═══════════════════ -/

/-- An entry of the raw request list: a string, or any non-string value
(the code only distinguishes these two cases, via `isinstance(s, str)`). -/
inductive PyEntry where
  | str (s : String)
  | nonString
  deriving DecidableEq

/-- The cleaning comprehension
`[s.strip() for s in symptoms if isinstance(s, str) and s.strip()]`. -/
def cleanedSymptoms (symptoms : List PyEntry) : List String :=
  symptoms.filterMap (fun e =>
    match e with
    | .str s => let t := pyStrip s; if pyEq t "" then none else some t
    | .nonString => none)

/-- Embeds `validate_symptoms`. The input is modelled as a list (the
`isinstance(symptoms, list)` guard), so `not symptoms` is emptiness. -/
def validate_symptoms (symptoms : List PyEntry) : List String × Option String :=
  if symptoms.isEmpty then ([], some "Please provide a list of symptoms")
  else
    let cleaned := cleanedSymptoms symptoms
    if cleaned.length = 0 then ([], some "Please provide at least one valid symptom")
    else if cleaned.length > 20 then ([], some "Please provide no more than 20 symptoms at a time")
    else (cleaned, none)

/- ═══════════════════ Derived predicates used by the theorems ═══════════════════ -/

/-- An entry of the raw symptom list that survives cleaning: a string with
non-whitespace content after trimming. -/
def survives : PyEntry → Bool
  | .str s => !(pyEq (pyStrip s) "")
  | .nonString => false

/-- A red-flag rule fires on a symptom set: all required symptoms present
and at least `min_supporting` supporting symptoms present, both under the
substring-tolerant test. -/
def ruleFires (symptom_set : List String) (rule : RedFlagRule) : Bool :=
  rule.required.all (presentIn symptom_set) &&
    rule.min_supporting ≤ rule.supporting.countP (presentIn symptom_set)

/-- The alert a fired rule emits. -/
def ruleAlert (rule : RedFlagRule) : Alert :=
  { name := rule.name, message := rule.message, action := rule.action, severity := "critical" }

/-- A follow-up question to which the answers dict supplies an applicable
answer: the question id is answered, and for a yes/no question the answer is
truthy, for a single-select question the answer is a key of its `boosts`. -/
def answerApplies (answers : List (String × String)) (q : FollowupQuestion) : Bool :=
  match dictLookup q.id answers with
  | none => false
  | some answer =>
    if pyEq q.qtype "yesno" then truthyAnswer answer
    else if pyEq q.qtype "select" then (dictLookup answer q.boosts).isSome
    else false

/-- The total (pre-demographic) score `match_symptoms` accumulates for a
condition on a symptom list. -/
def totalScoreOf (d : Disease) (user_symptoms : List String)
    (severity_map : List (String × String)) : ℚ :=
  (matchedAndTotal d.symptoms severity_map
    (user_symptoms.zip (user_symptoms.map expand_synonyms))).2

/-- The demographically adjusted score of a condition. -/
def adjustedScoreOf (d : Disease) (user_symptoms : List String) (age : Option Int)
    (sex : Option String) (severity_map : List (String × String)) : ℚ :=
  totalScoreOf d user_symptoms severity_map * (demoFactorNotes d age sex).1

/-- The distinct canonical symptom names of the synonym table (the set of
its values), listed in chunks so the idempotence check can be verified
chunk by chunk. -/
def c5Chunk1 : List String := ["shortness of breath", "chest pain", "chest tightness", "frequent urination", "blood in urine", "foamy urine", "dark urine", "decreased urination", "excessive thirst", "increased hunger", "fatigue", "low energy"]

def c5Chunk2 : List String := ["blurred vision", "rapid heartbeat", "heart palpitations", "irregular heartbeat", "persistent sadness", "low motivation", "loss of interest", "difficulty concentrating", "memory problems", "hopelessness", "worthlessness", "guilt"]

def c5Chunk3 : List String := ["insomnia", "sleep problems", "oversleeping", "mood swings", "anxiety", "loneliness", "feeling empty", "social withdrawal", "crying spells", "hand tremor", "tremor", "muscle stiffness"]

def c5Chunk4 : List String := ["rigid muscles", "difficulty walking", "balance problems", "impaired balance", "coordination problems", "slow movement", "shuffling walk", "small handwriting", "soft speech", "facial masking", "drooling", "difficulty swallowing"]

def c5Chunk5 : List String := ["loss of smell", "headaches", "back pain", "lower back pain", "arm pain", "left arm pain", "jaw pain", "shoulder pain", "body aches", "swollen ankles", "swollen legs", "puffy eyes"]

def c5Chunk6 : List String := ["swelling", "itchy skin", "dry skin", "darkened skin", "vomiting", "nausea", "loss of appetite", "constipation", "unexplained weight loss", "weight gain", "dizziness", "lightheadedness"]

def c5Chunk7 : List String := ["fainting", "tingling hands", "tingling feet", "tingling", "numbness in hands", "numbness in feet", "numbness", "cold sweats", "dehydration", "slow healing wounds", "sweet smelling breath", "metallic taste"]

def c5Chunk8 : List String := ["muscle cramps", "high blood pressure", "frequent infections", "yeast infections", "irritability", "stress", "restlessness"]

/-- All distinct canonical symptom names of the synonym table. -/
def canonicalValues : List String :=
  c5Chunk1 ++ c5Chunk2 ++ c5Chunk3 ++ c5Chunk4 ++ c5Chunk5 ++ c5Chunk6 ++ c5Chunk7 ++ c5Chunk8

/-- A sample result record used to instantiate universally quantified
theorems about `apply_followup_boosts` at a concrete input. -/
def sampleScore : DiseaseScore :=
  { name := "Heart Disease", id := "heart", icon := "", body_system := "Cardiovascular",
    body_system_icon := "", confidence := 0.5, score := 7, raw_score := 7,
    matched_symptoms := [], urgency := "low", triage := "informational",
    description := "", symptom_count := 0, total_symptoms_checked := 1,
    demographic_notes := [], has_followup_questions := true }

/- ═══════════════════ Theorems ═══════════════════ -/

theorem cleanedSymptoms_eq_nil (symptoms : List PyEntry)
    (h : ∀ e ∈ symptoms, survives e = false) : cleanedSymptoms symptoms = [] := by
  induction symptoms with
  | nil => rfl
  | cons e rest ih =>
    have he := h e (List.mem_cons_self _ _)
    have hr : cleanedSymptoms rest = [] :=
      ih (fun x hx => h x (List.mem_cons_of_mem _ hx))
    cases e with
    | str s =>
      have hs : pyEq (pyStrip s) "" = true := by
        simpa [survives] using he
      simpa [cleanedSymptoms, List.filterMap_cons, hs] using hr
    | nonString => simpa [cleanedSymptoms, List.filterMap_cons] using hr

/-- C9: a symptom list in which no entry is a string with non-whitespace
content after trimming makes `validate_symptoms` return an empty cleaned
list together with a non-`None` error message, rather than a successful
empty result (being a total function, it raises nothing). -/
theorem validate_symptoms_all_blank (symptoms : List PyEntry)
    (h : ∀ e ∈ symptoms, survives e = false) :
    (validate_symptoms symptoms).1 = [] ∧ (validate_symptoms symptoms).2 ≠ none := by
  have hclean := cleanedSymptoms_eq_nil symptoms h
  by_cases h0 : symptoms.isEmpty
  · simp [validate_symptoms, h0]
  · simp [validate_symptoms, h0, hclean]

theorem validate_symptoms_all_blank_witness :
    (∀ e ∈ [PyEntry.str "", PyEntry.str "  "], survives e = false) ∧
      (validate_symptoms [PyEntry.str "", PyEntry.str "  "]).1 = [] ∧
      (validate_symptoms [PyEntry.str "", PyEntry.str "  "]).2 ≠ none :=
  ⟨by decide, validate_symptoms_all_blank _ (by decide)⟩

/-- C10: `validate_symptoms` errors exactly when the input list is empty,
or no entries survive cleaning, or more than 20 entries survive cleaning —
the 20-item limit applies to the cleaned list, so an over-long raw list is
accepted whenever at most 20 entries survive; and on success the returned
list is the cleaned list. -/
theorem validate_symptoms_error_iff (symptoms : List PyEntry) :
    ((validate_symptoms symptoms).2 ≠ none ↔
      (symptoms = [] ∨ cleanedSymptoms symptoms = [] ∨
        20 < (cleanedSymptoms symptoms).length)) ∧
    ((validate_symptoms symptoms).2 = none →
      (validate_symptoms symptoms).1 = cleanedSymptoms symptoms) := by
  by_cases h0 : symptoms.isEmpty
  · have : symptoms = [] := by simpa [List.isEmpty_iff] using h0
    subst this
    simp [validate_symptoms]
  · have hne : ¬ symptoms = [] := by simpa [List.isEmpty_iff] using h0
    by_cases h1 : (cleanedSymptoms symptoms).length = 0
    · have : cleanedSymptoms symptoms = [] := List.length_eq_zero.mp h1
      simp [validate_symptoms, h0, h1, this, hne]
    · by_cases h2 : (cleanedSymptoms symptoms).length > 20
      · simp [validate_symptoms, h0, h1, h2, hne]
      · have h3 : ¬ cleanedSymptoms symptoms = [] := by
          intro hnil
          exact h1 (by simp [hnil])
        simp [validate_symptoms, h0, h1, h2, hne, h3]

theorem validate_symptoms_error_iff_witness :
    (validate_symptoms [PyEntry.str "s1", PyEntry.str "s2", PyEntry.str "s3",
      PyEntry.str "s4", PyEntry.str "s5", PyEntry.str "s6", PyEntry.str "s7",
      PyEntry.str "s8", PyEntry.str "s9", PyEntry.str "s10", PyEntry.str "s11",
      PyEntry.str "s12", PyEntry.str "s13", PyEntry.str "s14", PyEntry.str "s15",
      PyEntry.str "s16", PyEntry.str "s17", PyEntry.str "s18", PyEntry.str "s19",
      PyEntry.str "s20", PyEntry.str " "]).2 = none := by
  by_contra hne
  have h := (validate_symptoms_error_iff [PyEntry.str "s1", PyEntry.str "s2", PyEntry.str "s3",
      PyEntry.str "s4", PyEntry.str "s5", PyEntry.str "s6", PyEntry.str "s7",
      PyEntry.str "s8", PyEntry.str "s9", PyEntry.str "s10", PyEntry.str "s11",
      PyEntry.str "s12", PyEntry.str "s13", PyEntry.str "s14", PyEntry.str "s15",
      PyEntry.str "s16", PyEntry.str "s17", PyEntry.str "s18", PyEntry.str "s19",
      PyEntry.str "s20", PyEntry.str " "]).1.mp hne
  revert h
  decide

theorem synonymScan_eq_find (lower : String) (l : List (String × String)) :
    synonymScan lower l =
      match l.find? (fun p => pyIn p.1 lower || pyIn lower p.1) with
      | some p => p.2
      | none => lower := by
  induction l with
  | nil => rfl
  | cons p rest ih =>
    obtain ⟨phrase, canonical⟩ := p
    by_cases h : (pyIn phrase lower || pyIn lower phrase) = true
    · simp [synonymScan, List.find?, h]
    · simp only [Bool.not_eq_true] at h
      simp [synonymScan, List.find?, h, ih]

/-- C4: `expand_synonyms` behaves exactly as specified: the canonical
mapping of the lower-cased trimmed phrase when it is an exact key of the
synonym table, otherwise the canonical mapping of the first key in the
table's iteration order that is contained in the phrase or contains the
phrase, otherwise the lower-cased trimmed phrase itself — so among several
substring-compatible keys the first-declared one wins. -/
theorem expand_synonyms_eq_resolveSpec (t : String) :
    expand_synonyms t = resolveSpec t := by
  unfold expand_synonyms resolveSpec
  cases h : dictLookup (pyStrip (pyLower t)) SYNONYM_MAP with
  | some c => simp [h]
  | none => simp [h, synonymScan_eq_find]

theorem redFlagLoop_eq (syms : List String) (rules : List RedFlagRule) :
    redFlagLoop syms rules = (rules.filter (ruleFires syms)).map ruleAlert := by
  induction rules with
  | nil => rfl
  | cons rule rest ih =>
    by_cases h1 : rule.required.all (presentIn syms) = true
    · by_cases h2 : rule.min_supporting ≤ rule.supporting.countP (presentIn syms)
      · simp [redFlagLoop, h1, h2, ruleFires, ruleAlert, List.filter_cons, ih]
      · simp [redFlagLoop, h1, h2, ruleFires, List.filter_cons, ih]
    · simp only [Bool.not_eq_true] at h1
      simp [redFlagLoop, h1, ruleFires, List.filter_cons, ih]

/-- C1: `check_red_flags` returns exactly the alerts of the rules that
fire — every required symptom present under the substring-tolerant test and
at least `min_supporting` supporting symptoms present — in rule declaration
order, each with severity `"critical"`. -/
theorem check_red_flags_eq_filter (canonical_symptoms : List String) :
    check_red_flags canonical_symptoms =
      (RED_FLAG_RULES.filter (ruleFires canonical_symptoms)).map ruleAlert :=
  redFlagLoop_eq canonical_symptoms RED_FLAG_RULES

theorem applyQuestion_of_not_applies (answers : List (String × String))
    (acc : DiseaseScore × Bool) (q : FollowupQuestion)
    (h : answerApplies answers q = false) : applyQuestion answers acc q = acc := by
  unfold applyQuestion
  unfold answerApplies at h
  cases hq : dictLookup q.id answers with
  | none => simp
  | some answer =>
    rw [hq] at h
    by_cases h1 : pyEq q.qtype "yesno" = true
    · simp only [h1, if_true] at h ⊢
      simp [h]
    · simp only [h1] at h ⊢
      by_cases h2 : pyEq q.qtype "select" = true
      · simp only [h2, if_true] at h ⊢
        simp only [Bool.not_eq_true] at h1
        cases hb : dictLookup answer q.boosts with
        | none => simp [h1, hb]
        | some items =>
          simp [hb] at h
      · simp only [Bool.not_eq_true] at h1 h2
        simp [h1, h2]

theorem foldl_applyQuestion_id (answers : List (String × String)) :
    ∀ (qs : List FollowupQuestion) (acc : DiseaseScore × Bool),
      (∀ q ∈ qs, answerApplies answers q = false) →
      qs.foldl (applyQuestion answers) acc = acc := by
  intro qs
  induction qs with
  | nil => intro acc _; rfl
  | cons q rest ih =>
    intro acc h
    rw [List.foldl_cons,
      applyQuestion_of_not_applies answers acc q (h q (List.mem_cons_self _ _))]
    exact ih acc (fun x hx => h x (List.mem_cons_of_mem _ hx))

theorem boostResult_id (answers : List (String × String)) (r : DiseaseScore)
    (h : ∀ q ∈ (dictLookup r.id FOLLOW_UP_QUESTIONS).getD [],
      answerApplies answers q = false) :
    boostResult answers r = (r, false) :=
  foldl_applyQuestion_id answers _ (r, false) h

theorem boostPhase_id (answers : List (String × String)) (results : List DiseaseScore)
    (h : ∀ r ∈ results, ∀ q ∈ (dictLookup r.id FOLLOW_UP_QUESTIONS).getD [],
      answerApplies answers q = false) :
    boostPhase answers results = (results, false) := by
  induction results with
  | nil => rfl
  | cons r rest ih =>
    have hr := boostResult_id answers r (h r (List.mem_cons_self _ _))
    have hrest := ih (fun x hx => h x (List.mem_cons_of_mem _ hx))
    simp [boostPhase, hr, hrest]

theorem retier_score (r : DiseaseScore) : (retier r).score = r.score := by
  simp only [retier]
  split_ifs <;> rfl

theorem retier_confidence (r : DiseaseScore) : (retier r).confidence = r.confidence := by
  simp only [retier]
  split_ifs <;> rfl

theorem retier_id (r : DiseaseScore) : (retier r).id = r.id := by
  simp only [retier]
  split_ifs <;> rfl

/-- C8: when the answers dict supplies no applicable answer for any
follow-up question of any result's condition — unknown question ids,
non-truthy yes/no answers, select answers outside the declared boost
keys — `apply_followup_boosts` changes no result's score or confidence,
returns `crisisTriggered = false`, and (being a total function) raises
nothing. -/
theorem apply_followup_boosts_inert (results : List DiseaseScore)
    (answers : List (String × String))
    (h : ∀ r ∈ results, ∀ q ∈ (dictLookup r.id FOLLOW_UP_QUESTIONS).getD [],
      answerApplies answers q = false) :
    (apply_followup_boosts results answers).2 = false ∧
    ((apply_followup_boosts results answers).1.map
      (fun r => (r.score, r.confidence))).Perm
      (results.map (fun r => (r.score, r.confidence))) := by
  have hb := boostPhase_id answers results h
  unfold apply_followup_boosts
  rw [hb]
  refine ⟨rfl, ?_⟩
  rw [List.map_map]
  have hmap : ((fun r : DiseaseScore => (r.score, r.confidence)) ∘ retier) =
      (fun r : DiseaseScore => (r.score, r.confidence)) := by
    funext r
    simp only [Function.comp_apply, retier_score, retier_confidence]
  rw [hmap]
  exact (List.perm_insertionSort _ results).map _

theorem apply_followup_boosts_inert_witness :
    (apply_followup_boosts [sampleScore] [("unknown_question", "yes")]).2 = false ∧
    ((apply_followup_boosts [sampleScore] [("unknown_question", "yes")]).1.map
      (fun r => (r.score, r.confidence))).Perm
      ([sampleScore].map (fun r => (r.score, r.confidence))) :=
  apply_followup_boosts_inert _ _ (by decide)

theorem retier_fields (x : DiseaseScore) :
    ((retier x).urgency =
      if (retier x).score ≥
          ((dictLookup (retier x).id SYMPTOM_DATABASE).map Disease.urgency_threshold).getD 5 * 1.5
        then "high"
      else if (retier x).score ≥
          ((dictLookup (retier x).id SYMPTOM_DATABASE).map Disease.urgency_threshold).getD 5
        then "moderate"
      else "low") ∧
    ((retier x).triage =
      if (retier x).urgency = "high" then "urgent"
      else if (retier x).urgency = "moderate" then "standard"
      else "informational") := by
  rw [retier_score, retier_id]
  simp only [retier]
  split_ifs with h1 h2 <;> simp_all

/-- C7: after any follow-up boosts, the returned list is sorted by score
descending, and every result (answered or not) carries
`urgency = high / moderate / low` by comparing its score against 1.5× the
condition's urgency threshold and against the threshold, with the
simplified triage mapping high→urgent, moderate→standard,
low→informational (no confidence-based urgent/prompt split). -/
theorem apply_followup_boosts_spec (results : List DiseaseScore)
    (answers : List (String × String)) :
    (apply_followup_boosts results answers).1.Pairwise (fun a b => b.score ≤ a.score) ∧
    ∀ r ∈ (apply_followup_boosts results answers).1,
      (r.urgency =
        if r.score ≥ ((dictLookup r.id SYMPTOM_DATABASE).map Disease.urgency_threshold).getD 5 * 1.5
          then "high"
        else if r.score ≥ ((dictLookup r.id SYMPTOM_DATABASE).map Disease.urgency_threshold).getD 5
          then "moderate"
        else "low") ∧
      (r.triage =
        if r.urgency = "high" then "urgent"
        else if r.urgency = "moderate" then "standard"
        else "informational") := by
  unfold apply_followup_boosts
  rcases hbp : boostPhase answers results with ⟨boosted, crisis⟩
  dsimp only
  constructor
  · haveI : IsTotal DiseaseScore (fun a b => b.score ≤ a.score) :=
      ⟨fun a b => le_total b.score a.score⟩
    haveI : IsTrans DiseaseScore (fun a b => b.score ≤ a.score) :=
      ⟨fun _ _ _ hab hbc => le_trans hbc hab⟩
    have hsorted := List.sorted_insertionSort (fun a b : DiseaseScore => b.score ≤ a.score) boosted
    exact hsorted.map retier (fun a b hab => by
      rw [retier_score, retier_score]
      exact hab)
  · intro r hr
    obtain ⟨x, _, rfl⟩ := List.mem_map.mp hr
    exact retier_fields x

theorem apply_followup_boosts_spec_witness :
    (apply_followup_boosts [sampleScore] []).1.Pairwise (fun a b => b.score ≤ a.score) ∧
    (retier sampleScore).triage =
      (if (retier sampleScore).urgency = "high" then "urgent"
       else if (retier sampleScore).urgency = "moderate" then "standard"
       else "informational") := by
  refine ⟨(apply_followup_boosts_spec [sampleScore] []).1, ?_⟩
  have hmem : retier sampleScore ∈ (apply_followup_boosts [sampleScore] []).1 := by
    rw [show (apply_followup_boosts [sampleScore] []).1 = [retier sampleScore] from rfl]
    exact List.mem_singleton_self _
  exact ((apply_followup_boosts_spec [sampleScore] []).2 (retier sampleScore) hmem).2

theorem headI_mem {α : Type} [Inhabited α] {l : List α} (h : l ≠ []) : l.headI ∈ l := by
  cases l with
  | nil => exact absurd rfl h
  | cons a t => exact List.mem_cons_self _ _

theorem floor_le_roundHalfEven (q : ℚ) : ⌊q⌋ ≤ roundHalfEven q := by
  simp only [roundHalfEven]
  split_ifs <;> omega

theorem roundHalfEven_le_floor_add_one (q : ℚ) : roundHalfEven q ≤ ⌊q⌋ + 1 := by
  simp only [roundHalfEven]
  split_ifs <;> omega

theorem roundHalfEven_mono {x y : ℚ} (h : x ≤ y) : roundHalfEven x ≤ roundHalfEven y := by
  rcases lt_or_eq_of_le (Int.floor_mono h : ⌊x⌋ ≤ ⌊y⌋) with hlt | heq
  · calc roundHalfEven x ≤ ⌊x⌋ + 1 := roundHalfEven_le_floor_add_one x
      _ ≤ ⌊y⌋ := by omega
      _ ≤ roundHalfEven y := floor_le_roundHalfEven y
  · have hfr : x - ⌊x⌋ ≤ y - ⌊y⌋ := by
      rw [← heq]
      linarith
    simp only [roundHalfEven, ← heq]
    split_ifs <;> first | omega | linarith

theorem roundHalfEven_nonneg {x : ℚ} (h : 0 ≤ x) : 0 ≤ roundHalfEven x :=
  le_trans (Int.floor_nonneg.mpr h) (floor_le_roundHalfEven x)

theorem rnd2_mono {x y : ℚ} (h : x ≤ y) : rnd2 x ≤ rnd2 y := by
  unfold rnd2
  have h1 := roundHalfEven_mono (show x * 100 ≤ y * 100 by linarith)
  have h2 : ((roundHalfEven (x * 100) : ℚ)) ≤ (roundHalfEven (y * 100) : ℚ) := by
    exact_mod_cast h1
  exact (div_le_div_iff_of_pos_right (by norm_num)).mpr h2

theorem rnd1_mono {x y : ℚ} (h : x ≤ y) : rnd1 x ≤ rnd1 y := by
  unfold rnd1
  have h1 := roundHalfEven_mono (show x * 10 ≤ y * 10 by linarith)
  have h2 : ((roundHalfEven (x * 10) : ℚ)) ≤ (roundHalfEven (y * 10) : ℚ) := by
    exact_mod_cast h1
  exact (div_le_div_iff_of_pos_right (by norm_num)).mpr h2

theorem rnd2_nonneg {x : ℚ} (h : 0 ≤ x) : 0 ≤ rnd2 x := by
  unfold rnd2
  have h1 : (0 : ℤ) ≤ roundHalfEven (x * 100) := roundHalfEven_nonneg (by linarith)
  have h2 : (0 : ℚ) ≤ (roundHalfEven (x * 100) : ℚ) := by exact_mod_cast h1
  exact div_nonneg h2 (by norm_num)

theorem rnd2_099 : rnd2 0.99 = 0.99 := by
  have h : (0.99 : ℚ) * 100 = 99 := by norm_num
  unfold rnd2
  rw [h]
  have hf : ⌊(99 : ℚ)⌋ = 99 := by norm_num
  simp only [roundHalfEven, hf]
  norm_num

theorem min_rnd2_comm (x : ℚ) : min (rnd2 x) 0.99 = rnd2 (min x 0.99) := by
  rcases le_total x 0.99 with h | h
  · have h2 : rnd2 x ≤ (0.99 : ℚ) := by
      calc rnd2 x ≤ rnd2 0.99 := rnd2_mono h
        _ = 0.99 := rnd2_099
    rw [min_eq_left h2, min_eq_left h]
  · have h2 : (0.99 : ℚ) ≤ rnd2 x := by
      calc (0.99 : ℚ) = rnd2 0.99 := rnd2_099.symm
        _ ≤ rnd2 x := rnd2_mono h
    rw [min_eq_right h2, min_eq_right h, rnd2_099]

theorem sevMultiplier_pos (s : String) : 0 < sevMultiplier s := by
  unfold sevMultiplier
  split_ifs <;> norm_num

theorem scoreSymptom_nonneg (d_syms : List (String × ℚ)) (sev : List (String × String))
    (u c : String) : 0 ≤ (scoreSymptom d_syms sev u c).2 := by
  unfold scoreSymptom
  rcases hb : bestMatchLoop c d_syms (none, 0) with ⟨bm, bs⟩
  cases bm with
  | none => simp
  | some m =>
    by_cases hpos : bs > 0
    · simpa [hpos] using
        le_of_lt (mul_pos hpos (sevMultiplier_pos ((dictLookup u sev).getD "moderate")))
    · simp [hpos]

theorem matchedAndTotal_nonneg (d_syms : List (String × ℚ)) (sev : List (String × String)) :
    ∀ pairs : List (String × String), 0 ≤ (matchedAndTotal d_syms sev pairs).2 := by
  intro pairs
  induction pairs with
  | nil => simp [matchedAndTotal]
  | cons p rest ih =>
    obtain ⟨u, c⟩ := p
    have hs := scoreSymptom_nonneg d_syms sev u c
    rcases hsc : scoreSymptom d_syms sev u c with ⟨m, s⟩
    rw [hsc] at hs
    cases m with
    | none => simpa [matchedAndTotal, hsc] using ih
    | some mm =>
      simp only [matchedAndTotal, hsc]
      exact add_nonneg hs ih

theorem matchedAndTotal_append (d_syms : List (String × ℚ)) (sev : List (String × String))
    (xs ys : List (String × String)) :
    (matchedAndTotal d_syms sev (xs ++ ys)).2 =
      (matchedAndTotal d_syms sev xs).2 + (matchedAndTotal d_syms sev ys).2 := by
  induction xs with
  | nil => simp [matchedAndTotal]
  | cons p rest ih =>
    obtain ⟨u, c⟩ := p
    rcases hsc : scoreSymptom d_syms sev u c with ⟨m, s⟩
    cases m with
    | none => simpa [matchedAndTotal, hsc] using ih
    | some mm =>
      simp only [List.cons_append, matchedAndTotal, hsc, List.append_eq, ih]
      ring

theorem dictLookup_mem {α : Type} (k : String) (l : List (String × α)) (v : α)
    (h : dictLookup k l = some v) : v ∈ l.map Prod.snd := by
  induction l with
  | nil => simp [dictLookup] at h
  | cons p rest ih =>
    obtain ⟨k', v'⟩ := p
    by_cases hk : pyEq k k' = true
    · simp only [dictLookup, hk, if_true, Option.some.injEq] at h
      subst h
      exact List.mem_cons_self _ _
    · simp only [Bool.not_eq_true] at hk
      simp only [dictLookup, hk] at h
      exact List.mem_cons_of_mem _ (ih h)

/- The Batteries rational arithmetic is `@[irreducible]`, which only hides
it from the elaborator; `unseal` lets `decide` evaluate the engine's
exact-rational score arithmetic where a theorem needs it. -/
unseal Rat.add Rat.mul Rat.inv Rat.sub Rat.ofScientific in
theorem db_factors_pos :
    ∀ p ∈ SYMPTOM_DATABASE, 0 < p.2.age_modifier.factor ∧
      ∀ q ∈ p.2.sex_modifier, 0 < q.2 := by
  decide

theorem ageFactorStep_nonneg (d : Disease) (hage : 0 < d.age_modifier.factor)
    (age : Option Int) : 0 ≤ (ageFactorStep d age).1 := by
  cases age with
  | none => norm_num [ageFactorStep]
  | some a =>
    simp only [ageFactorStep]
    split_ifs
    · exact le_of_lt hage
    · norm_num

theorem sexFactorStep_nonneg (d : Disease) (hsex : ∀ q ∈ d.sex_modifier, 0 < q.2)
    (sex : Option String) : 0 ≤ (sexFactorStep d sex).1 := by
  cases sex with
  | none => norm_num [sexFactorStep]
  | some s =>
    simp only [sexFactorStep]
    by_cases hs : pyEq s "" = true
    · simp [hs]
    · simp only [hs, Bool.false_eq_true, if_false]
      cases hdl : dictLookup (pyLower s) d.sex_modifier with
      | none => simp [hdl]
      | some v =>
        have hv : 0 < v := by
          have := dictLookup_mem _ _ _ hdl
          obtain ⟨q, hq, hqv⟩ := List.mem_map.mp this
          exact hqv ▸ hsex q hq
        simp only [hdl, Option.getD_some]
        split_ifs
        · exact le_of_lt hv
        · norm_num

theorem demoFactorNotes_nonneg (d : Disease) (hage : 0 < d.age_modifier.factor)
    (hsex : ∀ q ∈ d.sex_modifier, 0 < q.2) (age : Option Int) (sex : Option String) :
    0 ≤ (demoFactorNotes d age sex).1 :=
  mul_nonneg (ageFactorStep_nonneg d hage age) (sexFactorStep_nonneg d hsex sex)

theorem mem_match_symptoms {user_symptoms : List String} {age : Option Int}
    {sex : Option String} {severity_map : List (String × String)} {r : DiseaseScore}
    (hr : r ∈ (match_symptoms user_symptoms age sex severity_map).1) :
    ∃ p ∈ SYMPTOM_DATABASE,
      scoreDisease p.1 p.2 (user_symptoms.zip (user_symptoms.map expand_synonyms))
        age sex severity_map (FOLLOW_UP_QUESTIONS.map Prod.fst) = some r := by
  unfold match_symptoms matchSymptomsWith at hr
  simp only [List.mem_insertionSort, List.mem_filterMap] at hr
  obtain ⟨p, hp, hf⟩ := hr
  exact ⟨p, hp, hf⟩

theorem scoreDisease_some {k : String} {d : Disease} {pairs : List (String × String)}
    {age : Option Int} {sex : Option String} {sev : List (String × String)}
    {fk : List String} {r : DiseaseScore}
    (h : scoreDisease k d pairs age sex sev fk = some r) :
    r.id = d.id ∧ r.raw_score = rnd1 (matchedAndTotal d.symptoms sev pairs).2 ∧
      r.confidence =
        confidenceOf d ((matchedAndTotal d.symptoms sev pairs).2 * (demoFactorNotes d age sex).1)
          pairs.length := by
  unfold scoreDisease at h
  rcases hmt : matchedAndTotal d.symptoms sev pairs with ⟨matched, total⟩
  rw [hmt] at h
  by_cases hemp : matched.isEmpty
  · simp [hemp] at h
  · simp only [hemp, Bool.false_eq_true, if_false, Option.some.injEq] at h
    subst h
    exact ⟨rfl, rfl, rfl⟩

/-- C3: every result `match_symptoms` produces has
`confidence = round₂(min(adjusted_score / max(max_possible, 1), 0.99))`
where `max_possible` sums the `N` largest weights of the condition's
symptom table and `N` is the number of user symptoms supplied, and
consequently `0 ≤ confidence ≤ 0.99`. -/
theorem match_symptoms_confidence (user_symptoms : List String) (age : Option Int)
    (sex : Option String) (severity_map : List (String × String)) (r : DiseaseScore)
    (hr : r ∈ (match_symptoms user_symptoms age sex severity_map).1) :
    (∃ p ∈ SYMPTOM_DATABASE, r.id = p.2.id ∧
      r.confidence = rnd2 (min
        (adjustedScoreOf p.2 user_symptoms age sex severity_map /
          max (maxPossible p.2 user_symptoms.length) 1) 0.99)) ∧
    0 ≤ r.confidence ∧ r.confidence ≤ 0.99 := by
  obtain ⟨p, hp, hsd⟩ := mem_match_symptoms hr
  obtain ⟨hid, _, hconf⟩ := scoreDisease_some hsd
  have hlen : (user_symptoms.zip (user_symptoms.map expand_synonyms)).length =
      user_symptoms.length := by
    simp
  have hadjeq : (matchedAndTotal p.2.symptoms severity_map
      (user_symptoms.zip (user_symptoms.map expand_synonyms))).2 *
      (demoFactorNotes p.2 age sex).1 =
      adjustedScoreOf p.2 user_symptoms age sex severity_map := rfl
  rw [hlen, hadjeq] at hconf
  have hx : 0 ≤ adjustedScoreOf p.2 user_symptoms age sex severity_map /
      max (maxPossible p.2 user_symptoms.length) 1 := by
    have hfac := db_factors_pos p hp
    have hadj : 0 ≤ adjustedScoreOf p.2 user_symptoms age sex severity_map :=
      mul_nonneg (matchedAndTotal_nonneg _ _ _)
        (demoFactorNotes_nonneg p.2 hfac.1 hfac.2 age sex)
    exact div_nonneg hadj (le_trans zero_le_one (le_max_right _ 1))
  refine ⟨⟨p, hp, hid, ?_⟩, ?_, ?_⟩
  · rw [hconf]
    unfold confidenceOf
    exact min_rnd2_comm _
  · rw [hconf]
    unfold confidenceOf
    exact le_min (rnd2_nonneg hx) (by norm_num)
  · rw [hconf]
    unfold confidenceOf
    exact min_le_right _ _

unseal Rat.add Rat.mul Rat.inv Rat.sub Rat.ofScientific in
theorem match_symptoms_confidence_witness :
    0 ≤ ((match_symptoms ["guilt"] none none []).1.headI).confidence ∧
      ((match_symptoms ["guilt"] none none []).1.headI).confidence ≤ 0.99 :=
  (match_symptoms_confidence ["guilt"] none none [] _ (headI_mem (by decide))).2

unseal Rat.ofScientific in
theorem db_id_inj :
    ∀ p ∈ SYMPTOM_DATABASE, ∀ q ∈ SYMPTOM_DATABASE, p.2.id = q.2.id → p = q := by
  decide

theorem matchedAndTotal_single (d_syms : List (String × ℚ)) (sev : List (String × String))
    (u c : String) :
    (matchedAndTotal d_syms sev [(u, c)]).2 = (scoreSymptom d_syms sev u c).2 := by
  rcases hsc : scoreSymptom d_syms sev u c with ⟨m, s⟩
  cases m with
  | some mm => simp [matchedAndTotal, hsc]
  | none =>
    have hs : s = 0 := by
      unfold scoreSymptom at hsc
      rcases hb : bestMatchLoop c d_syms (none, 0) with ⟨bm, bs⟩
      rw [hb] at hsc
      cases bm with
      | none => simpa using (congrArg Prod.snd hsc).symm
      | some mb =>
        by_cases hpos : bs > 0
        · simp [hpos] at hsc
        · simpa [hpos] using (congrArg Prod.snd hsc).symm
    simp [matchedAndTotal, hsc, hs]

theorem totalScoreOf_append_single (d : Disease) (sev : List (String × String))
    (us : List String) (y : String) :
    totalScoreOf d (us ++ [y]) sev =
      totalScoreOf d us sev + (scoreSymptom d.symptoms sev y (expand_synonyms y)).2 := by
  unfold totalScoreOf
  rw [List.map_append, List.zip_append (by simp), matchedAndTotal_append]
  congr 1
  simpa using matchedAndTotal_single d.symptoms sev y (expand_synonyms y)

/-- C6: appending one more symptom to the input never decreases a
condition's `raw_score` in the output of `match_symptoms`: the previously
supplied symptoms contribute unchanged and the new symptom's contribution
is nonnegative (in particular this covers appending a symptom that matches
a known symptom with positive weight). -/
theorem match_symptoms_raw_score_mono (us : List String) (y : String) (age : Option Int)
    (sex : Option String) (sev : List (String × String)) (d : String) (r r' : DiseaseScore)
    (hr : r ∈ (match_symptoms us age sex sev).1)
    (hr' : r' ∈ (match_symptoms (us ++ [y]) age sex sev).1)
    (hid : r.id = d) (hid' : r'.id = d) :
    r.raw_score ≤ r'.raw_score := by
  obtain ⟨p, hp, hsd⟩ := mem_match_symptoms hr
  obtain ⟨p', hp', hsd'⟩ := mem_match_symptoms hr'
  obtain ⟨hid1, hraw1, _⟩ := scoreDisease_some hsd
  obtain ⟨hid2, hraw2, _⟩ := scoreDisease_some hsd'
  have hpp : p = p' := db_id_inj p hp p' hp' (by rw [← hid1, ← hid2, hid, hid'])
  subst hpp
  rw [hraw1, hraw2]
  have h1 : (matchedAndTotal p.2.symptoms sev (us.zip (us.map expand_synonyms))).2 =
      totalScoreOf p.2 us sev := rfl
  have h2 : (matchedAndTotal p.2.symptoms sev
      ((us ++ [y]).zip ((us ++ [y]).map expand_synonyms))).2 =
      totalScoreOf p.2 (us ++ [y]) sev := rfl
  rw [h1, h2, totalScoreOf_append_single]
  exact rnd1_mono (le_add_of_nonneg_right (scoreSymptom_nonneg _ _ _ _))

unseal Rat.add Rat.mul Rat.inv Rat.sub Rat.ofScientific in
theorem match_symptoms_raw_score_mono_witness :
    ((match_symptoms ["guilt"] none none []).1.headI).raw_score ≤
      ((match_symptoms ["guilt", "insomnia"] none none []).1.headI).raw_score :=
  match_symptoms_raw_score_mono ["guilt"] "insomnia" none none [] "depression" _ _
    (headI_mem (by decide)) (headI_mem (by decide)) (by decide) (by decide)

unseal Rat.add Rat.mul Rat.inv Rat.sub Rat.ofScientific in
/-- C2: on the input `["hopelessness", "worthlessness"]` (no age, sex or
severity map) `match_symptoms` produces a depression result with nonzero
score, while `check_red_flags` on the canonicalized symptoms does not emit
the "Suicidal Crisis Indicators" alert: that rule finds zero of its
supporting symptoms present and requires `min_supporting = 2`. -/
theorem scenario_c :
    ((match_symptoms ["hopelessness", "worthlessness"] none none []).1.any
      (fun r => r.id == "depression" && r.score != 0)) = true ∧
    ((check_red_flags (["hopelessness", "worthlessness"].map expand_synonyms)).all
      (fun a => a.name != "Suicidal Crisis Indicators")) = true ∧
    ((RED_FLAG_RULES.filter (fun rule => rule.name == "Suicidal Crisis Indicators")).all
      (fun rule => rule.supporting.countP
          (presentIn (["hopelessness", "worthlessness"].map expand_synonyms)) == 0 &&
        rule.min_supporting == 2)) = true := by
  refine ⟨?_, by decide, by decide⟩
  rw [List.any_eq_true]
  have h1 : (scoreDisease (SYMPTOM_DATABASE.get ⟨3, by decide⟩).1
      (SYMPTOM_DATABASE.get ⟨3, by decide⟩).2
      (["hopelessness", "worthlessness"].zip
        (["hopelessness", "worthlessness"].map expand_synonyms))
      none none [] (FOLLOW_UP_QUESTIONS.map Prod.fst)).isSome = true := by
    decide
  refine ⟨(scoreDisease (SYMPTOM_DATABASE.get ⟨3, by decide⟩).1
      (SYMPTOM_DATABASE.get ⟨3, by decide⟩).2
      (["hopelessness", "worthlessness"].zip
        (["hopelessness", "worthlessness"].map expand_synonyms))
      none none [] (FOLLOW_UP_QUESTIONS.map Prod.fst)).get h1, ?_, ?_⟩
  · unfold match_symptoms matchSymptomsWith
    rw [List.mem_insertionSort]
    exact List.mem_filterMap.mpr
      ⟨SYMPTOM_DATABASE.get ⟨3, by decide⟩, List.get_mem _ _ _, Option.some_get h1⟩
  · exact rfl

theorem c5_cover : ∀ v, v ∈ SYNONYM_MAP.map Prod.snd → v ∈ canonicalValues := by
  decide

theorem c5_chunk1_idem :
    ∀ v ∈ c5Chunk1, expand_synonyms (expand_synonyms v) = expand_synonyms v := by
  decide

theorem c5_chunk2_idem :
    ∀ v ∈ c5Chunk2, expand_synonyms (expand_synonyms v) = expand_synonyms v := by
  decide

theorem c5_chunk3_idem :
    ∀ v ∈ c5Chunk3, expand_synonyms (expand_synonyms v) = expand_synonyms v := by
  decide

theorem c5_chunk4_idem :
    ∀ v ∈ c5Chunk4, expand_synonyms (expand_synonyms v) = expand_synonyms v := by
  decide

theorem c5_chunk5_idem :
    ∀ v ∈ c5Chunk5, expand_synonyms (expand_synonyms v) = expand_synonyms v := by
  decide

theorem c5_chunk6_idem :
    ∀ v ∈ c5Chunk6, expand_synonyms (expand_synonyms v) = expand_synonyms v := by
  decide

theorem c5_chunk7_idem :
    ∀ v ∈ c5Chunk7, expand_synonyms (expand_synonyms v) = expand_synonyms v := by
  decide

theorem c5_chunk8_idem :
    ∀ v ∈ c5Chunk8, expand_synonyms (expand_synonyms v) = expand_synonyms v := by
  decide

/-- C5: synonym resolution is idempotent on canonical forms: for every
string that occurs as a value of the synonym table,
`expand_synonyms (expand_synonyms v) = expand_synonyms v`. -/
theorem expand_synonyms_idempotent (v : String) (hv : v ∈ SYNONYM_MAP.map Prod.snd) :
    expand_synonyms (expand_synonyms v) = expand_synonyms v := by
  have hv2 := c5_cover v hv
  unfold canonicalValues at hv2
  rcases List.mem_append.mp hv2 with h | h8
  swap
  · exact c5_chunk8_idem v h8
  rcases List.mem_append.mp h with h | h7
  swap
  · exact c5_chunk7_idem v h7
  rcases List.mem_append.mp h with h | h6
  swap
  · exact c5_chunk6_idem v h6
  rcases List.mem_append.mp h with h | h5
  swap
  · exact c5_chunk5_idem v h5
  rcases List.mem_append.mp h with h | h4
  swap
  · exact c5_chunk4_idem v h4
  rcases List.mem_append.mp h with h | h3
  swap
  · exact c5_chunk3_idem v h3
  rcases List.mem_append.mp h with h1 | h2
  · exact c5_chunk1_idem v h1
  · exact c5_chunk2_idem v h2

theorem expand_synonyms_idempotent_witness :
    "fatigue" ∈ SYNONYM_MAP.map Prod.snd ∧
      expand_synonyms (expand_synonyms "fatigue") = expand_synonyms "fatigue" :=
  ⟨by decide, expand_synonyms_idempotent "fatigue" (by decide)⟩

end SymptomChecker
